import Mathlib

/-
Verification of the comff-offers-client repository: a thin gRPC client
wrapper around a remote offer-management service.  We shallowly embed the
Go source file client.go: durations are nanosecond integers (Go
time.Duration), the process environment is a total function from variable
names to strings (os.Getenv yields the empty string for an unset
variable), a Go context is a record of an optional absolute deadline and
an outgoing-metadata list, the external gRPC stub (api.OffersClient) is a
record of response functions, and external fallible effects (TLS setup,
grpc.Dial, conn.Close) are passed in as explicit oracle values.  Each
client method returns its Go result together with a trace of events
(remote invocation with the derived context, release of the cancel
handle) so that resource-release and forwarding claims can be stated.
-/

namespace OffersClientSpec

/-- Go time.Duration, in nanoseconds. -/
abbrev Duration := Int

/-- Go time.Second, in nanoseconds. -/
def second : Duration := 1000000000

/-- Source: defaultDialTimeout = 5 * time.Second. -/
def defaultDialTimeout : Duration := 5 * second

/-- Source: defaultKeepAlive = 30 * time.Second. -/
def defaultKeepAlive : Duration := 30 * second

/-- Source: defaultKeepAliveTimeout = 10 * time.Second. -/
def defaultKeepAliveTimeout : Duration := 10 * second

/-- Source: const DEFAULT_SERVICE_PORT = "57051". -/
def DEFAULT_SERVICE_PORT : String := "57051"

/-- Source: const DEFAULT_SERVICE_HOST = "127.0.0.1". -/
def DEFAULT_SERVICE_HOST : String := "127.0.0.1"

/-- Source: const DefaultClientName = "comfforts-offers-client". -/
def DefaultClientName : String := "comfforts-offers-client"

/-- Source: type ClientOption struct.  Caller is a Go string whose zero
value is the empty string. -/
structure ClientOption where
  DialTimeout : Duration
  KeepAlive : Duration
  KeepAliveTimeout : Duration
  Caller : String
deriving Repr, DecidableEq, Inhabited

/-- Source: NewDefaultClientOption.  The Caller field is left at its Go
zero value, the empty string. -/
def NewDefaultClientOption : ClientOption :=
  { DialTimeout := defaultDialTimeout
    KeepAlive := defaultKeepAlive
    KeepAliveTimeout := defaultKeepAliveTimeout
    Caller := "" }

/-- Process environment as read by os.Getenv: a total map from variable
names to values, where an unset variable reads as the empty string
(exactly the behavior of os.Getenv in Go). -/
abbrev Env := String → String

/-- Source, NewClient lines 91 to 94: servicePort := os.Getenv with
fallback to DEFAULT_SERVICE_PORT when empty. -/
def resolveServicePort (env : Env) : String :=
  let p := env "OFFERS_SERVICE_PORT"
  if p = "" then DEFAULT_SERVICE_PORT else p

/-- Source, NewClient lines 95 to 98: serviceHost := os.Getenv with
fallback to DEFAULT_SERVICE_HOST when empty. -/
def resolveServiceHost (env : Env) : String :=
  let h := env "OFFERS_SERVICE_HOST"
  if h = "" then DEFAULT_SERVICE_HOST else h

/-- Source, NewClient line 99: serviceAddr := fmt.Sprintf with format
string joining host and port by a colon. -/
def serviceAddr (env : Env) : String :=
  resolveServiceHost env ++ ":" ++ resolveServicePort env

/-- Errors from Go, kept abstract as their message strings. -/
abbrev GoError := String

/-- gRPC call errors (transport or remote service), kept abstract. -/
abbrev GrpcError := String

/-- Go context.Context, as used by this client: an optional absolute
deadline (nanoseconds) and the outgoing-metadata entries.  Values and
cancellation state beyond the deadline are not consulted by the source. -/
structure Context where
  deadline : Option Int
  outgoingMD : List (String × String)
deriving Repr, DecidableEq, Inhabited

/-- Go context.Background(): no deadline, no outgoing metadata. -/
def Context.background : Context := { deadline := none, outgoingMD := [] }

/-- Go context.WithTimeout(ctx, d) at current time now: the deadline is
adjusted to be no later than now + d; an earlier parent deadline is kept
(per the context package contract for WithDeadline). -/
def Context.withTimeout (ctx : Context) (now : Int) (d : Duration) : Context :=
  let dl : Int :=
    match ctx.deadline with
    | none => now + d
    | some t => min t (now + d)
  { ctx with deadline := some dl }

/-- Go metadata.NewOutgoingContext(ctx, md): replaces the outgoing
metadata of the context. -/
def metadataNewOutgoing (ctx : Context) (md : List (String × String)) : Context :=
  { ctx with outgoingMD := md }

/-- gRPC call option (grpc.CallOption), opaque to this client. -/
abbrev CallOption := String

/-
Message types of the external api/v1 package, mirrored with the fields
this repository reads or writes.  Numeric payload fields (min, max,
value, duration, distance) are carried opaquely by the client and play
no role in any claim, so the Offer record keeps only its identifying and
filter fields; the client never inspects any of them.
-/

/-- api.OfferStatusesRequest (no fields). -/
structure OfferStatusesRequest where
deriving Repr, DecidableEq, Inhabited

/-- api.OfferTypesRequest (no fields). -/
structure OfferTypesRequest where
deriving Repr, DecidableEq, Inhabited

/-- api.CreateOfferRequest, identifying fields. -/
structure CreateOfferRequest where
  ActorId : String
  ParticipantId : String
  TransactionId : String
  RequestedBy : String
  WorkflowId : String
  RunId : String
deriving Repr, DecidableEq, Inhabited

/-- api.UpdateOfferRequest, identifying fields. -/
structure UpdateOfferRequest where
  Id : String
  Status : String
  ScheduleId : String
  RequestedBy : String
deriving Repr, DecidableEq, Inhabited

/-- api.GetOfferRequest. -/
structure GetOfferRequest where
  Id : String
deriving Repr, DecidableEq, Inhabited

/-- api.GetOffersRequest: the filter request, e.g. by schedule id. -/
structure GetOffersRequest where
  ScheduleId : String
deriving Repr, DecidableEq, Inhabited

/-- api.DeleteOfferRequest. -/
structure DeleteOfferRequest where
  Id : String
deriving Repr, DecidableEq, Inhabited

/-- api Offer resource, identifying fields (owned by the remote service;
the client only marshals it). -/
structure Offer where
  Id : String
  Status : String
  ScheduleId : String
deriving Repr, DecidableEq, Inhabited

/-- api.OfferStatusesResponse. -/
structure OfferStatusesResponse where
  Statuses : List String
deriving Repr, DecidableEq, Inhabited

/-- api.OfferTypesResponse. -/
structure OfferTypesResponse where
  Types : List String
deriving Repr, DecidableEq, Inhabited

/-- api.OfferResponse. -/
structure OfferResponse where
  Offer : Offer
deriving Repr, DecidableEq, Inhabited

/-- api.OffersResponse: a list of offers. -/
structure OffersResponse where
  Offers : List Offer
deriving Repr, DecidableEq, Inhabited

/-- api.DeleteResponse. -/
structure DeleteResponse where
  Ok : Bool
deriving Repr, DecidableEq, Inhabited

/-- The external api.OffersClient gRPC stub: one response function per
remote operation, each receiving the context the client passes and the
request, and returning either the typed response or a call error.  The
call options the generated stub would accept are omitted here because
this repository never forwards any (see the per-method definitions). -/
structure OffersStub where
  GetOfferStatuses : Context → OfferStatusesRequest → Except GrpcError OfferStatusesResponse
  GetOfferTypes : Context → OfferTypesRequest → Except GrpcError OfferTypesResponse
  CreateOffer : Context → CreateOfferRequest → Except GrpcError OfferResponse
  UpdateOffer : Context → UpdateOfferRequest → Except GrpcError OfferResponse
  GetOffer : Context → GetOfferRequest → Except GrpcError OfferResponse
  GetOffers : Context → GetOffersRequest → Except GrpcError OffersResponse
  GetScheduleOffers : Context → GetOffersRequest → Except GrpcError OffersResponse
  DeleteOffer : Context → DeleteOfferRequest → Except GrpcError DeleteResponse

/-- Names of the exposed remote operations, used to label trace events. -/
inductive Op where
  | getOfferStatuses
  | getOfferTypes
  | createOffer
  | updateOffer
  | getOffer
  | getOffers
  | getScheduleOffers
  | deleteOffer
deriving Repr, DecidableEq

/-- Observable events of one client call: the remote invocation with the
context actually passed to the stub, and the release of the
deadline/cancel handle (the deferred cancel() in the source, which Go
runs on every exit path of the method). -/
inductive Event where
  | remoteInvoke (op : Op) (ctx : Context)
  | cancelReleased
deriving Repr, DecidableEq

/-- Source: type offersClient struct.  The logger is represented by the
log-event traces the operations return; conn is kept as the dialed
address string (the handle itself is opaque). -/
structure OffersClient where
  client : OffersStub
  connAddr : String
  opts : ClientOption

/-- Source: contextWithOptions (client.go lines 205 to 213).  Note the
opts parameter is accepted but the body reads ofc.opts throughout,
exactly as in the source; metadata is attached only when the configured
Caller is nonempty. -/
def OffersClient.contextWithOptions (ofc : OffersClient) (ctx : Context)
    (now : Int) (opts : ClientOption) : Context :=
  let ctx1 := ctx.withTimeout now ofc.opts.DialTimeout
  if ofc.opts.Caller ≠ "" then
    metadataNewOutgoing ctx1 [("service-client", ofc.opts.Caller)]
  else
    ctx1

/-- Source: GetOfferStatuses (client.go lines 120 to 129).  The variadic
opts are accepted and dropped; the stub is invoked with the derived
context; the deferred cancel runs before return. -/
def OffersClient.GetOfferStatuses (ofc : OffersClient) (ctx : Context)
    (now : Int) (req : OfferStatusesRequest) (opts : List CallOption) :
    Except GrpcError OfferStatusesResponse × List Event :=
  let ctx2 := ofc.contextWithOptions ctx now ofc.opts
  (ofc.client.GetOfferStatuses ctx2 req,
   [Event.remoteInvoke Op.getOfferStatuses ctx2, Event.cancelReleased])

/-- Source: GetOfferTypes (client.go lines 131 to 140). -/
def OffersClient.GetOfferTypes (ofc : OffersClient) (ctx : Context)
    (now : Int) (req : OfferTypesRequest) (opts : List CallOption) :
    Except GrpcError OfferTypesResponse × List Event :=
  let ctx2 := ofc.contextWithOptions ctx now ofc.opts
  (ofc.client.GetOfferTypes ctx2 req,
   [Event.remoteInvoke Op.getOfferTypes ctx2, Event.cancelReleased])

/-- Source: CreateOffer (client.go lines 142 to 151). -/
def OffersClient.CreateOffer (ofc : OffersClient) (ctx : Context)
    (now : Int) (req : CreateOfferRequest) (opts : List CallOption) :
    Except GrpcError OfferResponse × List Event :=
  let ctx2 := ofc.contextWithOptions ctx now ofc.opts
  (ofc.client.CreateOffer ctx2 req,
   [Event.remoteInvoke Op.createOffer ctx2, Event.cancelReleased])

/-- Source: UpdateOffer (client.go lines 153 to 162). -/
def OffersClient.UpdateOffer (ofc : OffersClient) (ctx : Context)
    (now : Int) (req : UpdateOfferRequest) (opts : List CallOption) :
    Except GrpcError OfferResponse × List Event :=
  let ctx2 := ofc.contextWithOptions ctx now ofc.opts
  (ofc.client.UpdateOffer ctx2 req,
   [Event.remoteInvoke Op.updateOffer ctx2, Event.cancelReleased])

/-- Source: GetOffer (client.go lines 164 to 173). -/
def OffersClient.GetOffer (ofc : OffersClient) (ctx : Context)
    (now : Int) (req : GetOfferRequest) (opts : List CallOption) :
    Except GrpcError OfferResponse × List Event :=
  let ctx2 := ofc.contextWithOptions ctx now ofc.opts
  (ofc.client.GetOffer ctx2 req,
   [Event.remoteInvoke Op.getOffer ctx2, Event.cancelReleased])

/-- Source: GetOffers (client.go lines 175 to 184). -/
def OffersClient.GetOffers (ofc : OffersClient) (ctx : Context)
    (now : Int) (req : GetOffersRequest) (opts : List CallOption) :
    Except GrpcError OffersResponse × List Event :=
  let ctx2 := ofc.contextWithOptions ctx now ofc.opts
  (ofc.client.GetOffers ctx2 req,
   [Event.remoteInvoke Op.getOffers ctx2, Event.cancelReleased])

/-- Modelled from the spec: the GetScheduleOffers operation is exercised
by the repository test (client_test.go lines 122 to 127) but its
implementation is not among the source files under src; per the
operations table of the spec it takes the filter request (for example a
scheduleId) and returns the list of offers, wrapped exactly like every
other exposed operation. -/
def OffersClient.GetScheduleOffers (ofc : OffersClient) (ctx : Context)
    (now : Int) (req : GetOffersRequest) (opts : List CallOption) :
    Except GrpcError OffersResponse × List Event :=
  let ctx2 := ofc.contextWithOptions ctx now ofc.opts
  (ofc.client.GetScheduleOffers ctx2 req,
   [Event.remoteInvoke Op.getScheduleOffers ctx2, Event.cancelReleased])

/-- Source: DeleteOffer (client.go lines 186 to 195). -/
def OffersClient.DeleteOffer (ofc : OffersClient) (ctx : Context)
    (now : Int) (req : DeleteOfferRequest) (opts : List CallOption) :
    Except GrpcError DeleteResponse × List Event :=
  let ctx2 := ofc.contextWithOptions ctx now ofc.opts
  (ofc.client.DeleteOffer ctx2 req,
   [Event.remoteInvoke Op.deleteOffer ctx2, Event.cancelReleased])

/-- Structured log events emitted through the logger. -/
inductive LogEvent where
  | errorLog (msg : String) (err : GoError)
  | infoLog (msg : String) (kvs : List (String × String))
deriving Repr, DecidableEq

/-- Shutdown trace events: one connClose per call to conn.Close(). -/
inductive CloseEvent where
  | connClose
deriving Repr, DecidableEq

/-- Source: Close (client.go lines 197 to 203).  conn.Close() is called
exactly once; its outcome is the closeResult oracle (none on success).
On failure the error is logged and returned; on success nil is
returned. -/
def OffersClient.Close (ofc : OffersClient) (closeResult : Option GoError) :
    Option GoError × List LogEvent × List CloseEvent :=
  match closeResult with
  | some err =>
      (some err, [LogEvent.errorLog "error closing offers client connection" err],
       [CloseEvent.connClose])
  | none => (none, [], [CloseEvent.connClose])

/-- Heap of ClientOption structs, addressed by Nat: NewClient receives a
pointer to a caller-owned ClientOption and may mutate it in place, so
construction is modelled with an explicit store. -/
abbrev OptHeap := Nat → ClientOption

/-- Handle returned by NewClient: it stores the address of the very
ClientOption struct the caller passed in (the source assigns the clientOpts
pointer into the offersClient struct), plus the dialed address standing
for the connection handle. -/
structure OffersClientRef where
  optsAddr : Nat
  connAddr : String
deriving Repr, DecidableEq

/-- Full outcome of NewClient: the heap after construction, the returned
client (none stands for the nil pointer), the returned error, and the
log events emitted. -/
structure NewClientOutcome where
  heap : OptHeap
  ret : Option OffersClientRef
  err : Option GoError
  logs : List LogEvent

/-- Source: NewClient (client.go lines 71 to 118).  The caller passes a
pointer (address addr) to a ClientOption in the heap.  External effects
enter as oracles: tls is the outcome of config.SetupTLSConfig, and dial
maps the target address to the outcome of grpc.Dial.  Steps, in source
order: the Caller field is defaulted in place when empty (before any
fallible step); TLS setup, returning its error on failure; endpoint
resolution from the environment; dialing the resolved address, returning
its error on failure; on success the client record keeps the address of
the caller-supplied struct. -/
def NewClient (heap : OptHeap) (addr : Nat) (tls : Except GoError Unit)
    (env : Env) (dial : String → Except GoError Unit) : NewClientOutcome :=
  let o := heap addr
  let o1 := if o.Caller = "" then { o with Caller := DefaultClientName } else o
  let heap1 : OptHeap := fun a => if a = addr then o1 else heap a
  match tls with
  | Except.error e =>
      { heap := heap1, ret := none, err := some e
        logs := [LogEvent.errorLog "error setting offers service client TLS" e] }
  | Except.ok _ =>
      let servicePort := resolveServicePort env
      let serviceHost := resolveServiceHost env
      let sAddr := serviceHost ++ ":" ++ servicePort
      match dial sAddr with
      | Except.error e =>
          { heap := heap1, ret := none, err := some e
            logs := [LogEvent.errorLog "offers client failed to connect" e] }
      | Except.ok _ =>
          { heap := heap1
            ret := some { optsAddr := addr, connAddr := sAddr }
            err := none
            logs := [LogEvent.infoLog "offers client connected"
                      [("host", serviceHost), ("port", servicePort)]] }

/-- Substring test on strings, via their character lists: does hay
contain needle as a contiguous infix?  Used to state that an error
message reports (mentions) the resolved address. -/
def strContains (hay needle : String) : Bool :=
  let rec go : List Char → Bool
    | [] => needle.data.isPrefixOf []
    | c :: cs => needle.data.isPrefixOf (c :: cs) || go cs
  go hay.data

/-- Concrete stub used to instantiate theorems at executable inputs. -/
def testStub : OffersStub where
  GetOfferStatuses := fun _ _ => Except.ok { Statuses := ["OPEN"] }
  GetOfferTypes := fun _ _ => Except.ok { Types := ["DEFAULT"] }
  CreateOffer := fun _ _ => Except.error "rpc error: already exists"
  UpdateOffer := fun _ _ => Except.ok { Offer := default }
  GetOffer := fun _ _ => Except.ok { Offer := default }
  GetOffers := fun _ _ => Except.ok { Offers := [] }
  GetScheduleOffers := fun _ r =>
    Except.ok { Offers := [{ Id := "o1", Status := "OPEN", ScheduleId := r.ScheduleId }] }
  DeleteOffer := fun _ _ => Except.ok { Ok := true }

/-- Concrete client used to instantiate theorems at executable inputs;
its caller identity is the default name, as NewClient would set it. -/
def testClient : OffersClient where
  client := testStub
  connAddr := "127.0.0.1:57051"
  opts := { NewDefaultClientOption with Caller := DefaultClientName }

/-- Environment with every variable unset. -/
def envEmpty : Env := fun _ => ""

end OffersClientSpec

namespace OffersClientSpec

/-- C1: for every exposed operation and every base context, the client
derives a fresh call-scoped context whose deadline is the configured dial
timeout counted from the base context (exactly now + DialTimeout when the
base context carries no deadline, and never later than now + DialTimeout
in general, per the context package contract), attaches the outgoing
metadata entry service-client set to the configured caller identity
(nonempty for every client NewClient produces, which the hypothesis
records), invokes the corresponding remote operation with that derived
context, and releases the cancel handle on every exit path before
returning: each operation trace is exactly the remote invocation with the
derived context followed by cancelReleased, for success and error
outcomes alike. -/
theorem C1_call_scoped_context_and_metadata
    (ofc : OffersClient) (ctx : Context) (now : Int)
    (hCaller : ofc.opts.Caller ≠ "")
    (r1 : OfferStatusesRequest) (r2 : OfferTypesRequest)
    (r3 : CreateOfferRequest) (r4 : UpdateOfferRequest)
    (r5 : GetOfferRequest) (r6 : GetOffersRequest) (r7 : DeleteOfferRequest)
    (opts : List CallOption) :
    (ctx.deadline = none →
      (ofc.contextWithOptions ctx now ofc.opts).deadline
        = some (now + ofc.opts.DialTimeout)) ∧
    (∀ t, (ofc.contextWithOptions ctx now ofc.opts).deadline = some t →
      t ≤ now + ofc.opts.DialTimeout) ∧
    (ofc.contextWithOptions ctx now ofc.opts).outgoingMD
      = [("service-client", ofc.opts.Caller)] ∧
    (ofc.GetOfferStatuses ctx now r1 opts).2
      = [Event.remoteInvoke Op.getOfferStatuses
          (ofc.contextWithOptions ctx now ofc.opts), Event.cancelReleased] ∧
    (ofc.GetOfferTypes ctx now r2 opts).2
      = [Event.remoteInvoke Op.getOfferTypes
          (ofc.contextWithOptions ctx now ofc.opts), Event.cancelReleased] ∧
    (ofc.CreateOffer ctx now r3 opts).2
      = [Event.remoteInvoke Op.createOffer
          (ofc.contextWithOptions ctx now ofc.opts), Event.cancelReleased] ∧
    (ofc.UpdateOffer ctx now r4 opts).2
      = [Event.remoteInvoke Op.updateOffer
          (ofc.contextWithOptions ctx now ofc.opts), Event.cancelReleased] ∧
    (ofc.GetOffer ctx now r5 opts).2
      = [Event.remoteInvoke Op.getOffer
          (ofc.contextWithOptions ctx now ofc.opts), Event.cancelReleased] ∧
    (ofc.GetOffers ctx now r6 opts).2
      = [Event.remoteInvoke Op.getOffers
          (ofc.contextWithOptions ctx now ofc.opts), Event.cancelReleased] ∧
    (ofc.DeleteOffer ctx now r7 opts).2
      = [Event.remoteInvoke Op.deleteOffer
          (ofc.contextWithOptions ctx now ofc.opts), Event.cancelReleased] := by
  refine ⟨?_, ?_, ?_, rfl, rfl, rfl, rfl, rfl, rfl, rfl⟩
  · intro h
    simp [OffersClient.contextWithOptions, Context.withTimeout,
      metadataNewOutgoing, h, hCaller]
  · intro t ht
    simp only [OffersClient.contextWithOptions, Context.withTimeout,
      metadataNewOutgoing, hCaller, if_pos, ne_eq, not_false_iff] at ht
    cases hd : ctx.deadline with
    | none =>
        rw [hd] at ht
        simp only [Option.some.injEq] at ht
        omega
    | some t0 =>
        rw [hd] at ht
        simp only [Option.some.injEq] at ht
        rw [← ht]
        exact min_le_right _ _
  · simp [OffersClient.contextWithOptions, Context.withTimeout,
      metadataNewOutgoing, hCaller]

/-- C1 witness: the caller identity of the concrete client is nonempty,
and the theorem instantiated at that client, the background context and
time zero yields the stated metadata entry. -/
theorem C1_witness :
    testClient.opts.Caller ≠ "" ∧
    (testClient.contextWithOptions Context.background 0 testClient.opts).outgoingMD
      = [("service-client", testClient.opts.Caller)] :=
  ⟨by decide,
   (C1_call_scoped_context_and_metadata testClient Context.background 0
      (by decide) {} {} default default default default default []).2.2.1⟩

/-- C2: every exposed operation returns, as its result component, exactly
the value produced by the corresponding remote invocation on the derived
context: on success the typed response and on failure the error, both
unchanged, with no retry and no reinterpretation (the equation holds for
every stub outcome, so no client-made error kind can appear). -/
theorem C2_results_forwarded_unchanged
    (ofc : OffersClient) (ctx : Context) (now : Int)
    (r1 : OfferStatusesRequest) (r2 : OfferTypesRequest)
    (r3 : CreateOfferRequest) (r4 : UpdateOfferRequest)
    (r5 : GetOfferRequest) (r6 : GetOffersRequest) (r7 : DeleteOfferRequest)
    (opts : List CallOption) :
    (ofc.GetOfferStatuses ctx now r1 opts).1
      = ofc.client.GetOfferStatuses (ofc.contextWithOptions ctx now ofc.opts) r1 ∧
    (ofc.GetOfferTypes ctx now r2 opts).1
      = ofc.client.GetOfferTypes (ofc.contextWithOptions ctx now ofc.opts) r2 ∧
    (ofc.CreateOffer ctx now r3 opts).1
      = ofc.client.CreateOffer (ofc.contextWithOptions ctx now ofc.opts) r3 ∧
    (ofc.UpdateOffer ctx now r4 opts).1
      = ofc.client.UpdateOffer (ofc.contextWithOptions ctx now ofc.opts) r4 ∧
    (ofc.GetOffer ctx now r5 opts).1
      = ofc.client.GetOffer (ofc.contextWithOptions ctx now ofc.opts) r5 ∧
    (ofc.GetOffers ctx now r6 opts).1
      = ofc.client.GetOffers (ofc.contextWithOptions ctx now ofc.opts) r6 ∧
    (ofc.DeleteOffer ctx now r7 opts).1
      = ofc.client.DeleteOffer (ofc.contextWithOptions ctx now ofc.opts) r7 :=
  ⟨rfl, rfl, rfl, rfl, rfl, rfl, rfl⟩

/-- C9: the variadic call options accepted by every exposed operation are
never forwarded to the remote invocation: two calls differing only in the
supplied options return identical results and traces. -/
theorem C9_call_options_never_forwarded
    (ofc : OffersClient) (ctx : Context) (now : Int)
    (r1 : OfferStatusesRequest) (r2 : OfferTypesRequest)
    (r3 : CreateOfferRequest) (r4 : UpdateOfferRequest)
    (r5 : GetOfferRequest) (r6 : GetOffersRequest) (r7 : DeleteOfferRequest)
    (optsA optsB : List CallOption) :
    ofc.GetOfferStatuses ctx now r1 optsA = ofc.GetOfferStatuses ctx now r1 optsB ∧
    ofc.GetOfferTypes ctx now r2 optsA = ofc.GetOfferTypes ctx now r2 optsB ∧
    ofc.CreateOffer ctx now r3 optsA = ofc.CreateOffer ctx now r3 optsB ∧
    ofc.UpdateOffer ctx now r4 optsA = ofc.UpdateOffer ctx now r4 optsB ∧
    ofc.GetOffer ctx now r5 optsA = ofc.GetOffer ctx now r5 optsB ∧
    ofc.GetOffers ctx now r6 optsA = ofc.GetOffers ctx now r6 optsB ∧
    ofc.DeleteOffer ctx now r7 optsA = ofc.DeleteOffer ctx now r7 optsB :=
  ⟨rfl, rfl, rfl, rfl, rfl, rfl, rfl⟩

/-- C3: the client exposes a GetScheduleOffers operation alongside
GetOffers; it takes the filter request (for example a scheduleId) and
returns the list of offers the remote operation yields.  The operation is
modelled from the spec because its implementation file is not among the
sources, while the repository test exercises it. -/
theorem C3_get_schedule_offers
    (ofc : OffersClient) (ctx : Context) (now : Int) (sid : String)
    (opts : List CallOption) (offers : List Offer)
    (h : ofc.client.GetScheduleOffers (ofc.contextWithOptions ctx now ofc.opts)
          { ScheduleId := sid } = Except.ok { Offers := offers }) :
    (ofc.GetScheduleOffers ctx now { ScheduleId := sid } opts).1
      = Except.ok { Offers := offers } := h

/-- C3 witness: at the concrete client, the schedule filter t3st yields
the one offer the concrete stub returns for that schedule. -/
theorem C3_witness :
    testClient.client.GetScheduleOffers
        (testClient.contextWithOptions Context.background 0 testClient.opts)
        { ScheduleId := "t3st" }
      = Except.ok { Offers := [{ Id := "o1", Status := "OPEN", ScheduleId := "t3st" }] } ∧
    (testClient.GetScheduleOffers Context.background 0 { ScheduleId := "t3st" } []).1
      = Except.ok { Offers := [{ Id := "o1", Status := "OPEN", ScheduleId := "t3st" }] } :=
  ⟨rfl, C3_get_schedule_offers testClient Context.background 0 "t3st" []
      [{ Id := "o1", Status := "OPEN", ScheduleId := "t3st" }] rfl⟩

/-- C4: during construction the endpoint address is host:port where host
comes from OFFERS_SERVICE_HOST with fallback 127.0.0.1 when unset or
empty (os.Getenv makes the two cases identical) and port comes from
OFFERS_SERVICE_PORT with fallback 57051; the last conjunct shows that
NewClient consults the dial oracle only at the resolved address
serviceAddr env, so that address is the one dialed. -/
theorem C4_endpoint_resolution
    (env : Env) (heap : OptHeap) (addr : Nat)
    (dial : String → Except GoError Unit) :
    (env "OFFERS_SERVICE_HOST" = "" → resolveServiceHost env = "127.0.0.1") ∧
    (env "OFFERS_SERVICE_HOST" ≠ "" →
      resolveServiceHost env = env "OFFERS_SERVICE_HOST") ∧
    (env "OFFERS_SERVICE_PORT" = "" → resolveServicePort env = "57051") ∧
    (env "OFFERS_SERVICE_PORT" ≠ "" →
      resolveServicePort env = env "OFFERS_SERVICE_PORT") ∧
    serviceAddr env = resolveServiceHost env ++ ":" ++ resolveServicePort env ∧
    NewClient heap addr (Except.ok ()) env dial
      = NewClient heap addr (Except.ok ()) env (fun _ => dial (serviceAddr env)) := by
  refine ⟨?_, ?_, ?_, ?_, rfl, rfl⟩
  · intro h; simp [resolveServiceHost, h, DEFAULT_SERVICE_HOST]
  · intro h; simp [resolveServiceHost, h]
  · intro h; simp [resolveServicePort, h, DEFAULT_SERVICE_PORT]
  · intro h; simp [resolveServicePort, h]

/-- C4 witness: with every variable unset the address is the default
one, obtained by applying the theorem at the empty environment. -/
theorem C4_witness :
    envEmpty "OFFERS_SERVICE_HOST" = "" ∧
    resolveServiceHost envEmpty = "127.0.0.1" ∧
    serviceAddr envEmpty = "127.0.0.1:57051" :=
  ⟨rfl,
   (C4_endpoint_resolution envEmpty (fun _ => NewDefaultClientOption) 0
      (fun _ => Except.ok ())).1 rfl,
   by decide⟩

/-- C5: the default configuration has dial timeout 5s, keep-alive 30s
and keep-alive timeout 10s (in nanoseconds, the unit of Go durations),
and a construction run on a configuration whose Caller is empty leaves
the configuration with the default name comfforts-offers-client, so a
successfully constructed client (whose opts pointer is the returned
optsAddr) has the default caller identity. -/
theorem C5_default_configuration
    (heap : OptHeap) (addr : Nat) (tls : Except GoError Unit) (env : Env)
    (dial : String → Except GoError Unit)
    (h : (heap addr).Caller = "") :
    NewDefaultClientOption.DialTimeout = 5 * second ∧
    NewDefaultClientOption.KeepAlive = 30 * second ∧
    NewDefaultClientOption.KeepAliveTimeout = 10 * second ∧
    NewDefaultClientOption.Caller = "" ∧
    DefaultClientName = "comfforts-offers-client" ∧
    ((NewClient heap addr tls env dial).heap addr).Caller = DefaultClientName ∧
    (∀ c, (NewClient heap addr tls env dial).ret = some c →
      ((NewClient heap addr tls env dial).heap c.optsAddr).Caller
        = DefaultClientName) := by
  refine ⟨rfl, rfl, rfl, rfl, rfl, ?_, ?_⟩
  · cases tls with
    | error e => simp [NewClient, h]
    | ok u =>
        cases hd : dial (resolveServiceHost env ++ ":" ++ resolveServicePort env) with
        | error e => simp [NewClient, hd, h]
        | ok v => simp [NewClient, hd, h]
  · intro c hc
    cases tls with
    | error e => simp [NewClient] at hc
    | ok u =>
        cases hd : dial (resolveServiceHost env ++ ":" ++ resolveServicePort env) with
        | error e => simp [NewClient, hd] at hc
        | ok v =>
            simp [NewClient, hd] at hc
            simp [NewClient, hd, ← hc, h]

/-- C5 witness: applying the theorem at a concrete heap holding the
default configuration (empty Caller) at address 0. -/
theorem C5_witness :
    ((fun _ => NewDefaultClientOption : OptHeap) 0).Caller = "" ∧
    ((NewClient (fun _ => NewDefaultClientOption) 0 (Except.ok ()) envEmpty
        (fun _ => Except.ok ())).heap 0).Caller = DefaultClientName :=
  ⟨rfl,
   (C5_default_configuration (fun _ => NewDefaultClientOption) 0 (Except.ok ())
      envEmpty (fun _ => Except.ok ()) rfl).2.2.2.2.2.1⟩

/-- C6 counterexample: connection failure at the default endpoint with
the dial error connection refused.  Construction fails as the claim
says, but the error returned to the caller is that dial error verbatim
and does not mention the resolved address 127.0.0.1:57051 (nor does the
failure log carry it), so the returned error does not report the
resolved address. -/
theorem C6_counterexample :
    (NewClient (fun _ => NewDefaultClientOption) 0 (Except.ok ()) envEmpty
        (fun _ => Except.error "connection refused")).ret = none ∧
    (NewClient (fun _ => NewDefaultClientOption) 0 (Except.ok ()) envEmpty
        (fun _ => Except.error "connection refused")).err
      = some "connection refused" ∧
    serviceAddr envEmpty = "127.0.0.1:57051" ∧
    strContains "connection refused" (serviceAddr envEmpty) = false ∧
    (NewClient (fun _ => NewDefaultClientOption) 0 (Except.ok ()) envEmpty
        (fun _ => Except.error "connection refused")).logs
      = [LogEvent.errorLog "offers client failed to connect"
          "connection refused"] := by
  refine ⟨rfl, rfl, by decide, by decide, rfl⟩

/-- C6 amended: when opening the connection to the resolved endpoint
fails, client construction fails (nil client) and the dial error is
returned to the caller unchanged; the client does not attach the
resolved address to the returned error, and the failure log names the
error but not the address. -/
theorem C6_amended_dial_error_propagated
    (heap : OptHeap) (addr : Nat) (env : Env)
    (dial : String → Except GoError Unit) (e : GoError)
    (h : dial (serviceAddr env) = Except.error e) :
    (NewClient heap addr (Except.ok ()) env dial).ret = none ∧
    (NewClient heap addr (Except.ok ()) env dial).err = some e ∧
    (NewClient heap addr (Except.ok ()) env dial).logs
      = [LogEvent.errorLog "offers client failed to connect" e] := by
  simp only [serviceAddr] at h
  refine ⟨?_, ?_, ?_⟩ <;> simp [NewClient, h]

/-- C6 amended witness: applying the amended theorem at the concrete
failing dial oracle. -/
theorem C6_amended_witness :
    ((fun _ => Except.error "connection refused" :
        String → Except GoError Unit) (serviceAddr envEmpty)
      = Except.error "connection refused") ∧
    (NewClient (fun _ => NewDefaultClientOption) 0 (Except.ok ()) envEmpty
        (fun _ => Except.error "connection refused")).err
      = some "connection refused" :=
  ⟨rfl,
   (C6_amended_dial_error_propagated (fun _ => NewDefaultClientOption) 0
      envEmpty (fun _ => Except.error "connection refused")
      "connection refused" rfl).2.1⟩

/-- C7: if TLS credential setup fails, or if opening the connection
fails, NewClient returns a nil client together with the underlying error
itself (the cause, attached unchanged). -/
theorem C7_construction_failures
    (heap : OptHeap) (addr : Nat) (env : Env)
    (dial : String → Except GoError Unit) (tls : Except GoError Unit) :
    (∀ e, tls = Except.error e →
      (NewClient heap addr tls env dial).ret = none ∧
      (NewClient heap addr tls env dial).err = some e) ∧
    (∀ e, dial (serviceAddr env) = Except.error e →
      (NewClient heap addr (Except.ok ()) env dial).ret = none ∧
      (NewClient heap addr (Except.ok ()) env dial).err = some e) := by
  constructor
  · intro e he
    subst he
    exact ⟨rfl, rfl⟩
  · intro e he
    simp only [serviceAddr] at he
    exact ⟨by simp [NewClient, he], by simp [NewClient, he]⟩

/-- C7 witness: applying the theorem at a concrete failing TLS oracle. -/
theorem C7_witness :
    ((Except.error "tls setup failed" : Except GoError Unit)
      = Except.error "tls setup failed") ∧
    (NewClient (fun _ => NewDefaultClientOption) 0
        (Except.error "tls setup failed") envEmpty
        (fun _ => Except.ok ())).ret = none ∧
    (NewClient (fun _ => NewDefaultClientOption) 0
        (Except.error "tls setup failed") envEmpty
        (fun _ => Except.ok ())).err = some "tls setup failed" :=
  ⟨rfl,
   (C7_construction_failures (fun _ => NewDefaultClientOption) 0 envEmpty
      (fun _ => Except.ok ()) (Except.error "tls setup failed")).1
     "tls setup failed" rfl |>.1,
   (C7_construction_failures (fun _ => NewDefaultClientOption) 0 envEmpty
      (fun _ => Except.ok ()) (Except.error "tls setup failed")).1
     "tls setup failed" rfl |>.2⟩

/-- C8: Close calls conn.Close exactly once per call (the close trace is
exactly one connClose); when closing fails the same error is logged and
returned, and when closing succeeds nil is returned with nothing logged.
The Lean function is total, so no execution of the model panics. -/
theorem C8_close_contract (ofc : OffersClient) (closeResult : Option GoError) :
    (ofc.Close closeResult).2.2 = [CloseEvent.connClose] ∧
    (∀ e, closeResult = some e →
      (ofc.Close closeResult).1 = some e ∧
      (ofc.Close closeResult).2.1
        = [LogEvent.errorLog "error closing offers client connection" e]) ∧
    (closeResult = none →
      (ofc.Close closeResult).1 = none ∧ (ofc.Close closeResult).2.1 = []) := by
  cases closeResult with
  | none =>
      refine ⟨rfl, ?_, ?_⟩
      · intro e he
        cases he
      · intro _
        exact ⟨rfl, rfl⟩
  | some err =>
      refine ⟨rfl, ?_, ?_⟩
      · intro e he
        cases he
        exact ⟨rfl, rfl⟩
      · intro h
        cases h

/-- C8 witness: applying the contract at the concrete client for a
failing close and reading off the returned error. -/
theorem C8_witness :
    (some "close failed" : Option GoError) = some "close failed" ∧
    (testClient.Close (some "close failed")).1 = some "close failed" ∧
    (testClient.Close none).1 = none :=
  ⟨rfl,
   ((C8_close_contract testClient (some "close failed")).2.1
      "close failed" rfl).1,
   ((C8_close_contract testClient none).2.2 rfl).1⟩

/-- C10: NewClient mutates the caller-supplied ClientOption in place:
the Caller field of the struct at the given address becomes the default
name exactly when it was empty, and this holds for every TLS and dial
outcome, so the write happens before any fallible step; every other
field of that struct and every other heap cell is unchanged; and on
success the returned client stores the address of that same struct, not
of a copy, so later reads and writes through the original pointer are
shared with the client. -/
theorem C10_opts_mutated_in_place
    (heap : OptHeap) (addr : Nat) (tls : Except GoError Unit) (env : Env)
    (dial : String → Except GoError Unit) :
    ((NewClient heap addr tls env dial).heap addr).Caller
      = (if (heap addr).Caller = "" then DefaultClientName
         else (heap addr).Caller) ∧
    ((NewClient heap addr tls env dial).heap addr).DialTimeout
      = (heap addr).DialTimeout ∧
    ((NewClient heap addr tls env dial).heap addr).KeepAlive
      = (heap addr).KeepAlive ∧
    ((NewClient heap addr tls env dial).heap addr).KeepAliveTimeout
      = (heap addr).KeepAliveTimeout ∧
    (∀ a, a ≠ addr → (NewClient heap addr tls env dial).heap a = heap a) ∧
    (∀ c, (NewClient heap addr tls env dial).ret = some c →
      c.optsAddr = addr) := by
  have hheap : (NewClient heap addr tls env dial).heap
      = fun a => if a = addr
          then (if (heap addr).Caller = ""
                then { heap addr with Caller := DefaultClientName }
                else heap addr)
          else heap a := by
    cases tls with
    | error e => rfl
    | ok u =>
        cases hd : dial (resolveServiceHost env ++ ":" ++ resolveServicePort env) with
        | error e => simp [NewClient, hd]
        | ok v => simp [NewClient, hd]
  refine ⟨?_, ?_, ?_, ?_, ?_, ?_⟩
  · rw [hheap]
    by_cases h : (heap addr).Caller = "" <;> simp [h]
  · rw [hheap]
    by_cases h : (heap addr).Caller = "" <;> simp [h]
  · rw [hheap]
    by_cases h : (heap addr).Caller = "" <;> simp [h]
  · rw [hheap]
    by_cases h : (heap addr).Caller = "" <;> simp [h]
  · intro a ha
    rw [hheap]
    simp [ha]
  · intro c hc
    cases tls with
    | error e => simp [NewClient] at hc
    | ok u =>
        cases hd : dial (resolveServiceHost env ++ ":" ++ resolveServicePort env) with
        | error e => simp [NewClient, hd] at hc
        | ok v =>
            simp [NewClient, hd] at hc
            rw [← hc]

/-- C10 witness: applying the theorem at a concrete heap whose cell 0
holds the default configuration, with both oracles succeeding; the
in-place default write and the pointer identity are read off. -/
theorem C10_witness :
    ((1 : Nat) ≠ 0) ∧
    ((NewClient (fun _ => NewDefaultClientOption) 0 (Except.ok ()) envEmpty
        (fun _ => Except.ok ())).heap 1 = NewDefaultClientOption) ∧
    ((NewClient (fun _ => NewDefaultClientOption) 0 (Except.ok ()) envEmpty
        (fun _ => Except.ok ())).heap 0).Caller
      = (if NewDefaultClientOption.Caller = "" then DefaultClientName
         else NewDefaultClientOption.Caller) :=
  ⟨by decide,
   (C10_opts_mutated_in_place (fun _ => NewDefaultClientOption) 0
      (Except.ok ()) envEmpty (fun _ => Except.ok ())).2.2.2.2.1 1 (by decide),
   (C10_opts_mutated_in_place (fun _ => NewDefaultClientOption) 0
      (Except.ok ()) envEmpty (fun _ => Except.ok ())).1⟩

end OffersClientSpec
